import Mathlib

/-!
Verification development for the MindFlayer schema-inference and
test-planning core.

Shallow embedding of:
  backend/models/context.py     (FieldSpec, StateConstraint, Endpoint, SystemContext)
  backend/models/test_plan.py   (TestScenario, TestPlan, validators)
  backend/planner/test_planner.py (plan_tests)
  backend/context/schema_inference.py (DOMAIN_SCHEMAS, infer_schemas, helpers)
  backend/validator/coverage.py (validate_coverage)

Conventions of the embedding:
  * Python `str` is Lean `String`; `in` on strings is substring containment,
    embedded as infix containment on the character lists.
  * Python `int` is Lean `Int`; Python `list` is Lean `List`; Python `dict`
    (insertion ordered) is an association `List`.
  * Python `set` values that the code returns to callers are embedded as
    `Finset` (Python iteration order over a set of strings is unspecified).
  * pydantic model construction runs the model validators; a model with
    validators is built through an `mk…` function returning `Except`,
    mirroring construction-time `ValueError` on invalid input.
  * pydantic v2 models raise `AttributeError` on access to an attribute the
    model does not declare; `FieldSpec` declares no `minimum`/`maximum`
    attribute, so the planner step that reads `f.minimum` is embedded as an
    `Except.error .attributeError` whenever it would evaluate that access.
  * The regular-expression scans of `schema_inference.py` run through
    Python's `re` library (external to the repository); their match lists
    are taken as inputs of the embedded functions, with each match carrying
    exactly the groups the source reads from it.
-/

namespace MindFlayer

/-- Python `needle in haystack` on strings: substring containment. -/
def strContains (s sub : String) : Bool := decide (sub.data <:+: s.data)

/-- Python `str.lower()` (the identifiers the code lowercases are ASCII). -/
def pyLower (s : String) : String := ⟨s.data.map Char.toLower⟩

/-- Python `str.upper()` (ASCII). -/
def pyUpper (s : String) : String := ⟨s.data.map Char.toUpper⟩

/-- Python `str.startswith`. -/
def pyStartsWith (s pre : String) : Bool := decide (pre.data <+: s.data)

/-- Python `str.endswith`. -/
def pyEndsWith (s suf : String) : Bool := decide (suf.data <:+ s.data)

/-- Drop the last `n` characters (Python `s[:-n]` for positive n). -/
def pyDropRight (s : String) (n : Nat) : String :=
  ⟨s.data.take (s.data.length - n)⟩

/-- Python `s.split(sep)` for a one-character separator. -/
def splitChar (sep : Char) : List Char → List (List Char)
  | [] => [[]]
  | c :: cs =>
    if c = sep then [] :: splitChar sep cs
    else match splitChar sep cs with
      | [] => [[c]]
      | h :: t => (c :: h) :: t

/-- Python `sep.join(parts)` for a one-character separator. -/
def joinChar (sep : Char) : List (List Char) → List Char
  | [] => []
  | [x] => x
  | x :: xs => x ++ sep :: joinChar sep xs

/-- Python `sep.join(parts)`. -/
def pyJoin (sep : String) : List String → String
  | [] => ""
  | [x] => x
  | x :: xs => x ++ sep ++ pyJoin sep xs

/-- Python `str.strip("/")`: remove leading and trailing `/` characters. -/
def stripSlashes (s : String) : String :=
  ⟨((s.data.dropWhile (· = '/')).reverse.dropWhile (· = '/')).reverse⟩

/-- Python `str.strip()`: remove leading and trailing whitespace. -/
def pyStrip (s : String) : String :=
  ⟨((s.data.dropWhile Char.isWhitespace).reverse.dropWhile Char.isWhitespace).reverse⟩

/-- Python `"x" * n` (empty for non-positive n). -/
def strRepeat (c : Char) (n : Int) : String := ⟨List.replicate n.toNat c⟩

/-- One insertion step of a stable insertion sort on strings. -/
def insertStr (x : String) : List String → List String
  | [] => [x]
  | y :: ys => if x < y then x :: y :: ys else y :: insertStr x ys

/-- Python `sorted` on a list of strings (all uses sort pairwise-distinct
elements, so any comparison sort agrees with CPython's). -/
def pySortedStr (l : List String) : List String := l.foldr insertStr []

/-- One insertion step for `sorted(dict.items())` on string-keyed counts. -/
def insertPair (x : String × Nat) : List (String × Nat) → List (String × Nat)
  | [] => [x]
  | y :: ys => if x.1 < y.1 then x :: y :: ys else y :: insertPair x ys

/-- Python `sorted` on `dict.items()` with pairwise-distinct string keys. -/
def pySortedPairs (l : List (String × Nat)) : List (String × Nat) :=
  l.foldr insertPair []

/-- Python `repr` of a list of strings, as an f-string renders it:
`['pending', 'open']`. -/
def pyReprStrList (l : List String) : String :=
  "[" ++ pyJoin ", " (l.map (fun s => "'" ++ s ++ "'")) ++ "]"

/-- Python `str.title()` restricted to ASCII letters: uppercase a letter
that follows a non-letter, lowercase a letter that follows a letter. -/
def pyTitleGo : Bool → List Char → List Char
  | _, [] => []
  | prevAlpha, c :: cs =>
    (if c.isAlpha then (if prevAlpha then c.toLower else c.toUpper) else c)
      :: pyTitleGo c.isAlpha cs

/-- Python `str.title()` (ASCII). -/
def pyTitle (s : String) : String := ⟨pyTitleGo false s.data⟩

/-- Python `s.split(" ", 1)` when it yields two parts: the text before the
first space and the text after it; `none` when the string has no space
(the caller then sees a 1-element split and skips the entry). -/
def splitFirstSpace : List Char → Option (List Char × List Char)
  | [] => none
  | ' ' :: rest => some ([], rest)
  | c :: rest => (splitFirstSpace rest).map (fun p => (c :: p.1, p.2))

/-- Python truthiness `opt or default` for an optional string. -/
def pyOr (o : Option String) (d : String) : String :=
  match o with
  | none => d
  | some s => if s = "" then d else s

/-- Rendering an optional string in an f-string (`None` when absent). -/
def pyShowOpt (o : Option String) : String :=
  match o with
  | none => "None"
  | some s => s

-- ═══════════════════════════════════════════════════════════
-- Data model (backend/models/context.py)
-- ═══════════════════════════════════════════════════════════

/-- `FieldSpec` from context.py lines 5-19, field for field.  The Python
attribute `example` is `example_` here (`example` is a Lean keyword).
Note: the model declares `min_length`/`max_length` but NO `minimum` or
`maximum` attribute. -/
structure FieldSpec where
  name : String
  field_type : String := "string"
  format : Option String := none
  required : Bool := true
  example_ : Option String := none
  min_length : Option Int := none
  max_length : Option Int := none
  enum : Option (List String) := none
  description : Option String := none
deriving DecidableEq, Repr

/-- `StateConstraint` from context.py lines 68-78. -/
structure StateConstraint where
  field : String
  allowed_values : List String
  blocked_values : List String := []
  description : String
  error_code : Int := 409
deriving DecidableEq, Repr

/-- `Endpoint` from context.py lines 81-95 (raw record; the construction
validators live in `mkEndpoint`). -/
structure Endpoint where
  name : String
  method : String
  url_path : String
  requires_auth : Bool := false
  depends_on : List String := []
  request_body : List FieldSpec := []
  response_body : List FieldSpec := []
  state_constraints : List StateConstraint := []
  roles : List String := []
  description : String := ""
  expected_success_code : Int := 200
deriving DecidableEq, Repr

/-- The valid-method set of `Endpoint.validate_method`. -/
def VALID_METHODS : List String :=
  ["GET", "POST", "PUT", "DELETE", "PATCH", "HEAD", "OPTIONS"]

/-- `Endpoint.auto_success_code` (context.py lines 105-113): after
validation, a code equal to 200 is replaced by 201 for POST and 204 for
DELETE. -/
def auto_success_code (ep : Endpoint) : Endpoint :=
  if ep.expected_success_code = 200 then
    if ep.method = "POST" then { ep with expected_success_code := 201 }
    else if ep.method = "DELETE" then { ep with expected_success_code := 204 }
    else ep
  else ep

/-- pydantic construction of `Endpoint`: `validate_method` (uppercase and
check membership) then the `auto_success_code` model validator. -/
def mkEndpoint (ep : Endpoint) : Except String Endpoint :=
  if VALID_METHODS.contains (pyUpper ep.method) then
    .ok (auto_success_code { ep with method := pyUpper ep.method })
  else
    .error ("Invalid HTTP method: " ++ ep.method)

/-- `AuthRule` from context.py lines 116-119. -/
structure AuthRule where
  scope : String
  required_for : List String := []
deriving DecidableEq, Repr

/-- `SystemContext` from context.py lines 122-126 (raw record; validators
live in `mkSystemContext`).  `dependencies` is a `dict` in insertion
order. -/
structure SystemContext where
  endpoints : List Endpoint := []
  auth_rules : List AuthRule := []
  dependencies : List (String × List String) := []
deriving DecidableEq, Repr

/-- `SystemContext.validate_no_duplicate_names`: `len(names) != len(set(names))`
rejects; the set size is the deduplicated length. -/
def validate_no_duplicate_names (eps : List Endpoint) : Bool :=
  (eps.map Endpoint.name).length = (eps.map Endpoint.name).dedup.length

/-- `SystemContext.validate_dependencies_exist`: every name in every value
list of `dependencies` must be an endpoint name.  (Only the `dependencies`
dict is checked; the code has no validator over `Endpoint.depends_on`.) -/
def validate_dependencies_exist (eps : List Endpoint)
    (deps : List (String × List String)) : Bool :=
  deps.all (fun kv => kv.2.all (fun d => (eps.map Endpoint.name).contains d))

/-- pydantic construction of `SystemContext`: field validators in field
order (`endpoints` first, then `dependencies`). -/
def mkSystemContext (ctx : SystemContext) : Except String SystemContext :=
  if ¬ validate_no_duplicate_names ctx.endpoints then
    .error "Duplicate endpoint names found"
  else if ¬ validate_dependencies_exist ctx.endpoints ctx.dependencies then
    .error "Dependency references non-existent endpoint"
  else
    .ok ctx

-- ═══════════════════════════════════════════════════════════
-- Test-plan model (backend/models/test_plan.py)
-- ═══════════════════════════════════════════════════════════

/-- `VALID_TEST_TYPES` from test_plan.py lines 6-16. -/
def VALID_TEST_TYPES : List String :=
  ["positive", "no_auth", "dependency_failure", "invalid_input",
   "state_conflict", "forbidden_role", "field_validation",
   "boundary_value", "numeric_boundary"]

/-- A payload-hint value: the planner stores strings (and, in the dead
numeric branch, ints) in the hint dict. -/
inductive PyVal where
  | s (v : String)
  | i (v : Int)
deriving DecidableEq, Repr

/-- `TestScenario` from test_plan.py lines 19-26 (raw record). -/
structure TestScenario where
  test_name : String
  endpoint : String
  description : String
  test_type : String
  expected_status : Int := 200
  payload_hint : Option (List (String × PyVal)) := none
deriving DecidableEq, Repr

/-- `TestScenario.validate_test_type` as a construction check. -/
def mkTestScenario (sc : TestScenario) : Except String TestScenario :=
  if VALID_TEST_TYPES.contains sc.test_type then .ok sc
  else .error ("Invalid test_type: " ++ sc.test_type)

/-- `TestPlan` from test_plan.py lines 36-39 (raw record). -/
structure TestPlan where
  scenarios : List TestScenario := []
  rationale : String := ""
deriving DecidableEq, Repr

/-- `TestPlan.validate_unique_test_names`: `len(names) != len(set(names))`
rejects; the set size is the deduplicated length. -/
def validate_unique_test_names (scs : List TestScenario) : Bool :=
  (scs.map TestScenario.test_name).length
    = (scs.map TestScenario.test_name).dedup.length

/-- pydantic construction of `TestPlan`. -/
def mkTestPlan (plan : TestPlan) : Except String TestPlan :=
  if validate_unique_test_names plan.scenarios then .ok plan
  else .error "Duplicate test names found in plan"

-- ═══════════════════════════════════════════════════════════
-- Test planner (backend/planner/test_planner.py)
-- ═══════════════════════════════════════════════════════════

/-- How `plan_tests` can fail: `attributeError` is the access to the
undeclared `FieldSpec.minimum` in planner step 9; `valueError` is the
`TestPlan` uniqueness validator rejecting the scenario list. -/
inductive PlanError where
  | attributeError
  | valueError
deriving DecidableEq, Repr

/-- The planner's `_add` closure: append the scenario unless its name is in
the existing-test set. -/
def addIf (existing_tests_set : List String) (sc : TestScenario) : List TestScenario :=
  if existing_tests_set.contains sc.test_name then [] else [sc]

/-- The planner's per-endpoint body (test_planner.py lines 56-230), steps 1
through 9 in source order.  Step 9 evaluates `f.minimum` on every element
of `endpoint.request_body`; `FieldSpec` declares no such attribute, so a
non-empty `request_body` raises `AttributeError` there (after the earlier
steps have run, whose local appends are then discarded with the raised
exception). -/
def planEndpoint (ctx : SystemContext) (existing_tests_set : List String)
    (ep : Endpoint) : Except PlanError (List TestScenario) :=
  let base_name := ep.name
  let method := ep.method
  let path := ep.url_path
  -- 1. positive
  let s1 := addIf existing_tests_set
    { test_name := base_name ++ "_positive", endpoint := ep.name,
      description := "Verify " ++ method ++ " " ++ path ++ " returns success with valid data",
      test_type := "positive", expected_status := ep.expected_success_code,
      payload_hint := none }
  -- 2. no_auth
  let s2 := if ep.requires_auth then
      addIf existing_tests_set
        { test_name := base_name ++ "_no_auth", endpoint := ep.name,
          description := "Verify " ++ method ++ " " ++ path ++ " rejects unauthenticated requests",
          test_type := "no_auth", expected_status := 401, payload_hint := none }
    else []
  -- 3. dependency_failure (one per entry of depends_on)
  let s3 := ep.depends_on.flatMap (fun dep =>
    addIf existing_tests_set
      { test_name := base_name ++ "_dependency_fail_" ++ dep, endpoint := ep.name,
        description := "Verify " ++ ep.name ++ " returns 404 when dependency '" ++ dep ++ "' resource does not exist",
        test_type := "dependency_failure", expected_status := 404, payload_hint := none })
  -- 4. invalid id
  let s4 := if strContains ep.url_path ":id" then
      addIf existing_tests_set
        { test_name := base_name ++ "_invalid_id", endpoint := ep.name,
          description := "Verify " ++ method ++ " " ++ path ++ " returns 404 for non-existent resource",
          test_type := "invalid_input", expected_status := 404, payload_hint := none }
    else []
  -- 5. state conflicts
  let s5 := ep.state_constraints.flatMap (fun c =>
    let blocked := c.blocked_values
    (if ¬ c.allowed_values.isEmpty then
      let conflict_state := blocked.headD "completed"
      addIf existing_tests_set
        { test_name := base_name ++ "_state_conflict_" ++ c.field, endpoint := ep.name,
          description := "Verify " ++ method ++ " " ++ path ++ " returns " ++ toString c.error_code
            ++ " when " ++ c.field ++ " is '" ++ conflict_state ++ "' (only allowed when "
            ++ c.field ++ " in " ++ pyReprStrList c.allowed_values ++ ")",
          test_type := "state_conflict", expected_status := c.error_code,
          payload_hint := some [(c.field, .s conflict_state)] }
     else [])
    ++ blocked.flatMap (fun blocked_val =>
      addIf existing_tests_set
        { test_name := base_name ++ "_state_blocked_" ++ blocked_val, endpoint := ep.name,
          description := "Verify " ++ method ++ " " ++ path ++ " returns " ++ toString c.error_code
            ++ " when " ++ c.field ++ " is '" ++ blocked_val ++ "'",
          test_type := "state_conflict", expected_status := c.error_code,
          payload_hint := some [(c.field, .s blocked_val)] }))
  -- 6. forbidden roles
  let s6 := if ep.roles.length > 0 ∧ ep.requires_auth then
      let all_roles := (ctx.endpoints.flatMap Endpoint.roles).dedup
      let forbidden_roles := all_roles.filter (fun r => ¬ ep.roles.contains r)
      ((pySortedStr forbidden_roles).take 2).flatMap (fun role =>
        addIf existing_tests_set
          { test_name := base_name ++ "_forbidden_" ++ role, endpoint := ep.name,
            description := "Verify " ++ method ++ " " ++ path ++ " returns 403 for '" ++ role
              ++ "' role (requires: " ++ pyJoin ", " ep.roles ++ ")",
            test_type := "forbidden_role", expected_status := 403, payload_hint := none })
    else []
  -- 7. field validation: format fields (limit 2), then first required field
  let format_fields := ep.request_body.filter (fun f =>
    [some "email", some "phone", some "uri", some "url", some "uuid"].contains f.format)
  let s7a := (format_fields.take 2).flatMap (fun field =>
    addIf existing_tests_set
      { test_name := base_name ++ "_invalid_" ++ field.name, endpoint := ep.name,
        description := "Verify " ++ method ++ " " ++ path ++ " returns 422 when '" ++ field.name
          ++ "' has invalid " ++ pyShowOpt field.format ++ " format",
        test_type := "field_validation", expected_status := 422,
        payload_hint := some [(field.name, .s ("not-a-valid-" ++ pyOr field.format "value"))] })
  let required_fields := ep.request_body.filter (fun f => f.required)
  let s7b := match required_fields with
    | [] => []
    | key_field :: _ =>
      addIf existing_tests_set
        { test_name := base_name ++ "_missing_" ++ key_field.name, endpoint := ep.name,
          description := "Verify " ++ method ++ " " ++ path ++ " returns 422 when required field '"
            ++ key_field.name ++ "' is missing",
          test_type := "field_validation", expected_status := 422,
          payload_hint := some [("_omit_field", .s key_field.name)] }
  -- 8. boundary values (string length, limit 2)
  let boundary_fields := ep.request_body.filter (fun f =>
    f.min_length ≠ none ∨ f.max_length ≠ none)
  let s8 := (boundary_fields.take 2).flatMap (fun field =>
    match field.min_length with
    | some ml =>
      if ml > 0 then
        let short_value := strRepeat 'x' (max 1 (ml - 1))
        addIf existing_tests_set
          { test_name := base_name ++ "_short_" ++ field.name, endpoint := ep.name,
            description := "Verify " ++ method ++ " " ++ path ++ " returns 422 when '" ++ field.name
              ++ "' is shorter than " ++ toString ml ++ " characters",
            test_type := "boundary_value", expected_status := 422,
            payload_hint := some [(field.name, .s short_value)] }
      else []
    | none => [])
  -- 9. numeric boundaries: `[f for f in endpoint.request_body if f.minimum
  -- is not None or f.maximum is not None]` reads `f.minimum`, an attribute
  -- FieldSpec does not declare: AttributeError on any non-empty request_body.
  if ep.request_body.isEmpty then
    .ok (s1 ++ s2 ++ s3 ++ s4 ++ s5 ++ s6 ++ s7a ++ s7b ++ s8)
  else
    .error .attributeError

/-- The planner's endpoint loop: scenarios accumulate in endpoint order; a
raised exception aborts the whole call. -/
def planScenarios (ctx : SystemContext) (existing_tests_set : List String) :
    List Endpoint → Except PlanError (List TestScenario)
  | [] => .ok []
  | ep :: rest =>
    match planEndpoint ctx existing_tests_set ep with
    | .error e => .error e
    | .ok s =>
      match planScenarios ctx existing_tests_set rest with
      | .error e => .error e
      | .ok r => .ok (s ++ r)

/-- The rationale's `type_counts` dict: first-occurrence (insertion) order. -/
def typeCounts (scs : List TestScenario) : List (String × Nat) :=
  scs.foldl (fun acc sc =>
    if acc.any (fun kv => kv.1 = sc.test_type) then
      acc.map (fun kv => if kv.1 = sc.test_type then (kv.1, kv.2 + 1) else kv)
    else acc ++ [(sc.test_type, 1)]) []

/-- `plan_tests` (test_planner.py lines 13-244): dedup against the existing
set at generation time, then the rationale summary, then `TestPlan`
construction (whose uniqueness validator can reject). -/
def plan_tests (ctx : SystemContext) (existing_tests : List String) :
    Except PlanError TestPlan :=
  let existing_tests_set := existing_tests.dedup
  match planScenarios ctx existing_tests_set ctx.endpoints with
  | .error e => .error e
  | .ok scenarios =>
    let type_summary := pyJoin ", "
      ((pySortedPairs (typeCounts scenarios)).map (fun kv => toString kv.2 ++ " " ++ kv.1))
    let rationale := "Planned " ++ toString scenarios.length ++ " tests covering "
      ++ toString ctx.endpoints.length ++ " endpoints. Deduped against "
      ++ toString existing_tests_set.length ++ " existing tests. Breakdown: "
      ++ type_summary ++ "."
    if validate_unique_test_names scenarios then
      .ok { scenarios := scenarios, rationale := rationale }
    else
      .error .valueError

-- ═══════════════════════════════════════════════════════════
-- Schema inference (backend/context/schema_inference.py)
-- ═══════════════════════════════════════════════════════════

/-- One entry of `DOMAIN_SCHEMAS`: `(path_keywords, method_filter, fields)`.
Every entry in the source table carries a non-`None` method filter. -/
structure DomainRule where
  keywords : List String
  methods : List String
  fields : List FieldSpec
deriving DecidableEq, Repr

/-- `DOMAIN_SCHEMAS` (schema_inference.py lines 22-125), entry for entry in
declaration order. -/
def DOMAIN_SCHEMAS : List DomainRule := [
  { keywords := ["register", "signup", "sign-up"], methods := ["POST"],
    fields := [
      { name := "email", field_type := "string", format := some "email", required := true,
        example_ := some "user@example.com" },
      { name := "password", field_type := "string", format := some "password", required := true,
        min_length := some 8, example_ := some "SecureP@ss123" },
      { name := "username", field_type := "string", required := false,
        min_length := some 3, max_length := some 30, example_ := some "john_doe" },
      { name := "full_name", field_type := "string", required := false,
        example_ := some "John Doe" }] },
  { keywords := ["login", "signin", "sign-in", "auth/token"], methods := ["POST"],
    fields := [
      { name := "email", field_type := "string", format := some "email", required := true,
        example_ := some "user@example.com" },
      { name := "password", field_type := "string", format := some "password", required := true,
        example_ := some "SecureP@ss123" }] },
  { keywords := ["orders", "order"], methods := ["POST", "PUT"],
    fields := [
      { name := "product_id", field_type := "string", format := some "uuid", required := true,
        description := some "Product to order" },
      { name := "quantity", field_type := "integer", required := true, example_ := some "2" },
      { name := "shipping_address", field_type := "string", required := true,
        example_ := some "123 Main St, Springfield, IL" },
      { name := "payment_method", field_type := "string", required := false,
        enum := some ["credit_card", "paypal", "bank_transfer"],
        example_ := some "credit_card" }] },
  { keywords := ["products", "product", "items", "item", "catalog"], methods := ["POST", "PUT"],
    fields := [
      { name := "name", field_type := "string", required := true,
        example_ := some "Wireless Headphones" },
      { name := "price", field_type := "number", required := true, example_ := some "79.99" },
      { name := "description", field_type := "string", required := false,
        example_ := some "Noise-cancelling over-ear headphones" },
      { name := "category", field_type := "string", required := false,
        example_ := some "electronics" },
      { name := "sku", field_type := "string", required := false,
        example_ := some "WH-1000XM5" }] },
  { keywords := ["users", "user", "profile", "profiles", "account"],
    methods := ["POST", "PUT", "PATCH"],
    fields := [
      { name := "name", field_type := "string", required := true, example_ := some "Jane Smith" },
      { name := "email", field_type := "string", format := some "email", required := true,
        example_ := some "jane@example.com" },
      { name := "phone", field_type := "string", format := some "phone", required := false,
        example_ := some "+1-555-0199" },
      { name := "role", field_type := "string", required := false,
        enum := some ["user", "admin", "moderator"], example_ := some "user" }] },
  { keywords := ["comments", "comment", "reviews", "review", "feedback"], methods := ["POST"],
    fields := [
      { name := "content", field_type := "string", required := true,
        min_length := some 1, max_length := some 2000,
        example_ := some "Great product, highly recommended!" },
      { name := "rating", field_type := "integer", required := false, example_ := some "5",
        description := some "Rating from 1-5" }] },
  { keywords := ["posts", "post", "articles", "article", "blog"], methods := ["POST", "PUT"],
    fields := [
      { name := "title", field_type := "string", required := true,
        min_length := some 1, max_length := some 200,
        example_ := some "Getting Started with API Testing" },
      { name := "body", field_type := "string", required := true,
        example_ := some "In this guide we explore..." },
      { name := "tags", field_type := "array", required := false,
        example_ := some "[\"testing\", \"api\"]" },
      { name := "published", field_type := "boolean", required := false,
        example_ := some "false" }] },
  { keywords := ["payments", "payment", "transactions", "transaction", "charges", "charge"],
    methods := ["POST"],
    fields := [
      { name := "amount", field_type := "number", required := true, example_ := some "99.99" },
      { name := "currency", field_type := "string", required := true,
        enum := some ["USD", "EUR", "GBP", "INR"], example_ := some "USD" },
      { name := "payment_method", field_type := "string", required := true,
        enum := some ["credit_card", "paypal", "bank_transfer"],
        example_ := some "credit_card" },
      { name := "description", field_type := "string", required := false,
        example_ := some "Order #1234 payment" }] },
  { keywords := ["notifications", "notification", "alerts", "messages"], methods := ["POST"],
    fields := [
      { name := "recipient_id", field_type := "string", format := some "uuid", required := true },
      { name := "title", field_type := "string", required := true,
        example_ := some "New order received" },
      { name := "message", field_type := "string", required := true,
        example_ := some "You have a new order #1234" },
      { name := "channel", field_type := "string", required := false,
        enum := some ["email", "sms", "push"], example_ := some "email" }] }]

/-- The normalized path of `_infer_request_fields`:
`"/".join(ep.url_path.lower().strip("/").split("/"))`. -/
def pathStr (url_path : String) : String :=
  ⟨joinChar '/' (splitChar '/' (stripSlashes (pyLower url_path)).data)⟩

/-- Whether a `DOMAIN_SCHEMAS` rule fires for an endpoint: the method filter
(all entries carry one) must contain the method, and some keyword must be a
substring of the normalized path. -/
def ruleMatches (ep : Endpoint) (r : DomainRule) : Bool :=
  (r.methods.isEmpty || r.methods.contains ep.method)
    && r.keywords.any (fun kw => strContains (pathStr ep.url_path) kw)

/-- `_extract_resource` (schema_inference.py lines 232-243): first non-param
path segment, singularized. -/
def extract_resource (url_path : String) : String :=
  let parts := (splitChar '/' (stripSlashes url_path).data).map String.mk
  let resource_parts := parts.filter (fun p => ¬ pyStartsWith p ":" ∧ ¬ pyStartsWith p "\x7b")
  let resource := resource_parts.headD "resource"
  if pyEndsWith resource "ies" then pyDropRight resource 3 ++ "y"
  else if pyEndsWith resource "s" ∧ resource.length > 1 then pyDropRight resource 1
  else resource

/-- `_generic_request_fields` (schema_inference.py lines 219-229): the
two-field fallback template. -/
def generic_request_fields (ep : Endpoint) : List FieldSpec :=
  let resource := extract_resource ep.url_path
  [{ name := "name", field_type := "string", required := true,
     example_ := some ("Test " ++ pyTitle resource) },
   { name := "description", field_type := "string", required := false,
     example_ := some ("Description for " ++ resource) }]

/-- `_infer_request_fields` (schema_inference.py lines 183-196): first
matching domain rule in declaration order, generic fallback otherwise. -/
def infer_request_fields (ep : Endpoint) : List FieldSpec :=
  match DOMAIN_SCHEMAS.find? (ruleMatches ep) with
  | some r => r.fields
  | none => generic_request_fields ep

/-- `_infer_response_fields` (schema_inference.py lines 199-216): id field,
echo of the request fields, timestamps. -/
def infer_response_fields (ep : Endpoint) : List FieldSpec :=
  ([{ name := "id", field_type := "string", format := some "uuid",
      example_ := some "550e8400-e29b-41d4-a716-446655440000" }]
   ++ ep.request_body)
  ++ [{ name := "created_at", field_type := "string", format := some "date-time",
        required := false, example_ := some "2025-06-15T10:30:00Z" },
      { name := "updated_at", field_type := "string", format := some "date-time",
        required := false, example_ := some "2025-06-15T10:30:00Z" }]

/-- The per-endpoint body of the `infer_schemas` loop (schema_inference.py
lines 161-172): GET/HEAD/OPTIONS only get a response body; other methods
get request and response bodies, each only when still empty. -/
def tier1Endpoint (ep : Endpoint) : Endpoint :=
  if ["GET", "HEAD", "OPTIONS"].contains ep.method then
    if ep.response_body.isEmpty then { ep with response_body := infer_response_fields ep }
    else ep
  else
    let ep1 := if ep.request_body.isEmpty then
        { ep with request_body := infer_request_fields ep }
      else ep
    if ep1.response_body.isEmpty then { ep1 with response_body := infer_response_fields ep1 }
    else ep1

/-- One `re.finditer` match of a `STATE_PATTERNS` entry over the lowercased
requirements text: which of the two patterns matched, the two capture
groups, and the full matched span (`group(0)`). -/
structure StateMatch where
  allowedPattern : Bool  -- true: the "(can only be) X if/when status is V" pattern
  group1 : String        -- the action verb
  group2 : String        -- the status value
  matched : String       -- the whole matched text
deriving DecidableEq, Repr

/-- The `StateConstraint` that `_extract_state_constraints` builds from one
match (schema_inference.py lines 250-259). -/
def matchConstraint (m : StateMatch) : StateConstraint :=
  if m.allowedPattern then
    { field := "status", allowed_values := [pyLower m.group2], blocked_values := [],
      description := pyStrip m.matched, error_code := 409 }
  else
    { field := "status", allowed_values := [], blocked_values := [pyLower m.group2],
      description := pyStrip m.matched, error_code := 409 }

/-- `re.sub(r"(ed|led|d)$", "", action)`: the leftmost end-anchored
alternative strips `led` when present, else `ed`, else `d`. -/
def stripActionSuffix (action : String) : String :=
  if pyEndsWith action "led" then pyDropRight action 3
  else if pyEndsWith action "ed" then pyDropRight action 2
  else if pyEndsWith action "d" then pyDropRight action 1
  else action

/-- `_action_matches_endpoint` (schema_inference.py lines 271-275). -/
def action_matches_endpoint (action : String) (ep : Endpoint) : Bool :=
  let stem := stripActionSuffix action
  strContains (pyLower ep.url_path) stem || strContains (pyLower ep.name) stem

/-- The endpoint test of `_extract_state_constraints` line 265:
`action in ep.name.lower() + " " + ep.url_path.lower()` or the stem
match. -/
def epKeywordMatch (action : String) (ep : Endpoint) : Bool :=
  strContains (pyLower ep.name ++ " " ++ pyLower ep.url_path) action
    || action_matches_endpoint action ep

/-- Append a constraint unless a value-equal one is already attached
(`if constraint not in ep.state_constraints`). -/
def addConstraint (ep : Endpoint) (c : StateConstraint) : Endpoint :=
  if ep.state_constraints.contains c then ep
  else { ep with state_constraints := ep.state_constraints ++ [c] }

/-- The inner endpoint loop of `_extract_state_constraints` lines 263-268:
the first matching endpoint receives the constraint, then `break`. -/
def attachConstraint (action : String) (c : StateConstraint) :
    List Endpoint → List Endpoint
  | [] => []
  | ep :: rest =>
    if epKeywordMatch action ep then addConstraint ep c :: rest
    else ep :: attachConstraint action c rest

/-- `_extract_state_constraints` (schema_inference.py lines 246-268) over
the match list (both patterns' `finditer` runs, in source order). -/
def extract_state_constraints (eps : List Endpoint) (ms : List StateMatch) :
    List Endpoint :=
  ms.foldl (fun acc m => attachConstraint (pyLower m.group1) (matchConstraint m) acc) eps

/-- One `ROLE_PATTERNS` match over the lowercased text: `group(1)` and, for
the two-group pattern, `group(2)` (the patterns with one group leave it
`none`, matching the `match.lastindex >= 2` guard). -/
structure RoleMatch where
  group1 : String
  group2 : Option String := none
deriving DecidableEq, Repr

/-- The recognized role vocabulary of `_extract_roles`. -/
def ROLE_VOCAB : List String :=
  ["user", "admin", "moderator", "manager", "editor", "viewer", "owner"]

/-- Building the `role_mentions` dict (insertion-ordered role → actions). -/
def roleMentions (ms : List RoleMatch) : List (String × List String) :=
  ms.foldl (fun acc m =>
    let role := pyLower m.group1
    if ROLE_VOCAB.contains role then
      let acc := if acc.any (fun kv => kv.1 = role) then acc else acc ++ [(role, [])]
      match m.group2 with
      | some a => acc.map (fun kv => if kv.1 = role then (kv.1, kv.2 ++ [pyLower a]) else kv)
      | none => acc
    else acc) []

/-- `re.sub(r"(e?s|ed|ing)$", "", action)`: strip `ing`, else `es`, else
`ed`, else `s` (leftmost end-anchored alternative). -/
def stripRoleSuffix (action : String) : String :=
  if pyEndsWith action "ing" then pyDropRight action 3
  else if pyEndsWith action "es" then pyDropRight action 2
  else if pyEndsWith action "ed" then pyDropRight action 2
  else if pyEndsWith action "s" then pyDropRight action 1
  else action

/-- The verb-stem → HTTP-method table of `_extract_roles`. -/
def methodMap : List (String × String) :=
  [("get", "GET"), ("creat", "POST"), ("updat", "PUT"),
   ("delet", "DELETE"), ("remov", "DELETE"), ("cancel", "DELETE")]

/-- Whether one extracted action matches an endpoint (name/path substring,
else the method table). -/
def roleActionMatches (action : String) (ep : Endpoint) : Bool :=
  let stem := stripRoleSuffix action
  if strContains (pyLower ep.name) stem || strContains (pyLower ep.url_path) stem then true
  else match methodMap.lookup stem with
    | some m => m = ep.method
    | none => false

/-- `_extract_roles` (schema_inference.py lines 278-315).  The Python
`ep.roles = list(matched_roles)` iterates a set of strings in unspecified
order; the embedding fixes the role_mentions insertion order. -/
def extract_roles (eps : List Endpoint) (ms : List RoleMatch) : List Endpoint :=
  let mentions := roleMentions ms
  if ¬ mentions.isEmpty then
    let roles_list := mentions.map Prod.fst
    eps.map (fun ep =>
      if ep.requires_auth then
        let matched_roles := (mentions.filter (fun kv =>
          kv.2.any (fun a => roleActionMatches a ep))).map Prod.fst
        if ¬ matched_roles.isEmpty then { ep with roles := matched_roles }
        else if ep.roles.isEmpty then { ep with roles := roles_list }
        else ep
      else ep)
  else eps

/-- The Tier-1 deterministic part of `infer_schemas` (lines 161-177): the
per-endpoint schema loop, then — only when the requirements text is
non-empty — state-constraint and role extraction. -/
def tier1 (eps : List Endpoint) (sms : List StateMatch) (rms : List RoleMatch)
    (has_text : Bool) : List Endpoint :=
  let eps := eps.map tier1Endpoint
  if has_text then extract_roles (extract_state_constraints eps sms) rms
  else eps

/-- A correction object from the refinement collaborator's JSON (the shape
`_apply_corrections` reads; absent keys are already defaulted, and the
`StateConstraint` entries carry the constructor defaults `blocked_values=[]`
and `error_code=409` when the JSON omits them). -/
structure Correction where
  endpoint : String
  add_fields : List FieldSpec := []
  remove_fields : List String := []
  state_constraints : List StateConstraint := []
deriving DecidableEq, Repr

/-- `_apply_corrections` body for one matched endpoint (schema_inference.py
lines 404-423): remove, then add (skipping duplicates by field name), then
append state constraints (value-equality dedup). -/
def applyCorrectionTo (c : Correction) (ep : Endpoint) : Endpoint :=
  let ep := if ¬ c.remove_fields.isEmpty then
      { ep with request_body := ep.request_body.filter (fun f => ¬ c.remove_fields.contains f.name) }
    else ep
  let ep := c.add_fields.foldl (fun e fd =>
    if e.request_body.any (fun f => f.name = fd.name) then e
    else { e with request_body := e.request_body ++ [fd] }) ep
  c.state_constraints.foldl (fun e sc =>
    if e.state_constraints.contains sc then e
    else { e with state_constraints := e.state_constraints ++ [sc] }) ep

/-- The endpoint loop of `_apply_corrections`: the first endpoint matching
the correction's `METHOD /path` target is modified, then `break`. -/
def applyToFirst (m p : String) (c : Correction) : List Endpoint → List Endpoint
  | [] => []
  | ep :: rest =>
    if ep.method = m ∧ ep.url_path = p then applyCorrectionTo c ep :: rest
    else ep :: applyToFirst m p c rest

/-- `_apply_corrections` (schema_inference.py lines 393-424). -/
def apply_corrections (eps : List Endpoint) (cs : List Correction) : List Endpoint :=
  cs.foldl (fun acc c =>
    match splitFirstSpace c.endpoint.data with
    | none => acc
    | some (m, p) => applyToFirst (pyUpper (String.mk m)) (String.mk p) c acc) eps

/-- The observable outcome of the Tier-2 refinement attempt
(`_try_llm_refinement`, schema_inference.py lines 318-390).  The three
failure constructors cover every failure mode the `try/except` swallows:
`unavailable` (absent credentials — the early `return` — or an unreachable
collaborator), `chatError` (the `adapter.chat` call raising, e.g. a
timeout), `malformedJson` (`json.loads` raising on the response). -/
inductive RefineOutcome where
  | unavailable
  | chatError
  | malformedJson
  | parsed (corrections : List Correction)
deriving DecidableEq, Repr

/-- `_try_llm_refinement`: nothing happens without requirements text; every
failure outcome leaves the endpoints untouched; a parsed response is
applied via `_apply_corrections`. -/
def try_llm_refinement (eps : List Endpoint) (has_text : Bool)
    (outcome : RefineOutcome) : List Endpoint :=
  if ¬ has_text then eps
  else match outcome with
    | .unavailable => eps
    | .chatError => eps
    | .malformedJson => eps
    | .parsed cs => apply_corrections eps cs

/-- `infer_schemas` (schema_inference.py lines 151-180): Tier-1, then the
best-effort Tier-2 refinement. -/
def infer_schemas (eps : List Endpoint) (sms : List StateMatch)
    (rms : List RoleMatch) (has_text : Bool) (outcome : RefineOutcome) :
    List Endpoint :=
  try_llm_refinement (tier1 eps sms rms has_text) has_text outcome

-- ═══════════════════════════════════════════════════════════
-- Coverage validator (backend/validator/coverage.py)
-- ═══════════════════════════════════════════════════════════

/-- The report dict of `validate_coverage`; the Python `list(set)` values
(`already_covered`, `new_tests`, `duplicates`), whose order is
unspecified, are the underlying finite sets; the nested `summary` dict is
flattened into the three `summary_…` fields. -/
structure CoverageReport where
  total_planned : Nat
  already_covered : Finset String
  new_tests : Finset String
  duplicates : Finset String
  coverage_improvement : ℚ
  summary_new : Nat
  summary_existing : Nat
  summary_total_after_generation : Nat
deriving DecidableEq

/-- `validate_coverage` (coverage.py lines 4-53). -/
def validate_coverage (planned_tests existing_tests : List String) : CoverageReport :=
  let planned_set := planned_tests.toFinset
  let existing_set := existing_tests.toFinset
  let already_covered := planned_set ∩ existing_set
  let new_tests := planned_set \ existing_set
  let duplicates := (planned_tests.filter (fun t => decide (planned_tests.count t > 1))).toFinset
  let total_planned := planned_set.card
  let coverage_improvement : ℚ :=
    if total_planned > 0 then (new_tests.card : ℚ) / (total_planned : ℚ) else 0
  { total_planned := total_planned
    already_covered := already_covered
    new_tests := new_tests
    duplicates := duplicates
    coverage_improvement := coverage_improvement
    summary_new := new_tests.card
    summary_existing := existing_set.card
    summary_total_after_generation := existing_set.card + new_tests.card }

/-- The attachment predicate as the spec words it: the endpoint's
(lowercased) name or url_path contains the matched action verb or its
stem. -/
def nameOrPathHasVerbOrStem (action : String) (ep : Endpoint) : Prop :=
  strContains (pyLower ep.name) action = true
  ∨ strContains (pyLower ep.url_path) action = true
  ∨ strContains (pyLower ep.name) (stripActionSuffix action) = true
  ∨ strContains (pyLower ep.url_path) (stripActionSuffix action) = true

instance (action : String) (ep : Endpoint) :
    Decidable (nameOrPathHasVerbOrStem action ep) := by
  unfold nameOrPathHasVerbOrStem; infer_instance

/-- The scenario names a bare endpoint (no request_body, state_constraints,
roles or depends_on) can contribute to a plan, in generation order. -/
def bareCandidateNames (ep : Endpoint) : List String :=
  [ep.name ++ "_positive"]
  ++ (if ep.requires_auth then [ep.name ++ "_no_auth"] else [])
  ++ (if strContains ep.url_path ":id" then [ep.name ++ "_invalid_id"] else [])

-- ═══════════════════════════════════════════════════════════
-- Concrete instances used by the claim theorems
-- ═══════════════════════════════════════════════════════════

/-- A duplicate-producing context: two non-value-equal constraints on the
same `status` field of one endpoint both generate the scenario name
`orders_state_conflict_status`. -/
def scC1a : StateConstraint :=
  { field := "status", allowed_values := ["pending"],
    description := "cancelled if status is pending" }

def scC1b : StateConstraint :=
  { field := "status", allowed_values := ["open"],
    description := "updated when status is open" }

def epC1 : Endpoint :=
  { name := "orders", method := "POST", url_path := "/orders",
    state_constraints := [scC1a, scC1b], expected_success_code := 201 }

def ctxC1 : SystemContext := { endpoints := [epC1] }

/-- A context of two bare (un-annotated) endpoints. -/
def epC1w1 : Endpoint :=
  { name := "orders", method := "POST", url_path := "/orders",
    requires_auth := true, expected_success_code := 201 }

def epC1w2 : Endpoint :=
  { name := "get_order", method := "GET", url_path := "/orders/:id" }

def ctxC1w : SystemContext := { endpoints := [epC1w1, epC1w2] }

/-- An endpoint with a non-empty request body. -/
def fsC2 : FieldSpec := { name := "email", format := some "email" }

def epC2 : Endpoint :=
  { name := "users", method := "POST", url_path := "/users", request_body := [fsC2] }

def ctxC2 : SystemContext := { endpoints := [epC2] }

/-- The closest constructible form of the claim's failing input: pydantic
silently drops an unknown `minimum=1` keyword, so the constructed
`FieldSpec` is exactly this record. -/
def fsC3 : FieldSpec := { name := "quantity", field_type := "integer" }

def epC3 : Endpoint :=
  { name := "orders", method := "POST", url_path := "/orders",
    request_body := [fsC3], expected_success_code := 201 }

def ctxC3 : SystemContext := { endpoints := [epC3] }

def epC4get : Endpoint := { name := "things", method := "GET", url_path := "/things" }

def epC4del : Endpoint :=
  { name := "widgets", method := "DELETE", url_path := "/widgets",
    expected_success_code := 204 }

def epC5 : Endpoint :=
  { name := "orders", method := "POST", url_path := "/orders",
    depends_on := ["ghost"], expected_success_code := 201 }

def ctxC5 : SystemContext := { endpoints := [epC5] }

def ctxC5w : SystemContext :=
  { endpoints := [{ name := "a", method := "GET", url_path := "/a" },
                  { name := "b", method := "GET", url_path := "/b" }],
    dependencies := [("b", ["a"])] }

def epC6 : Endpoint := { name := "orders", method := "POST", url_path := "/orders" }

def epC7raw : Endpoint :=
  { name := "orders", method := "POST", url_path := "/orders", requires_auth := true }

def epC7 : Endpoint :=
  { name := "orders", method := "POST", url_path := "/orders",
    requires_auth := true, expected_success_code := 201 }

def ctxC7 : SystemContext := { endpoints := [epC7] }

/-- A POST endpoint constructed with the explicit keyword argument
`expected_success_code=200` (indistinguishable, to the validator, from the
unset default). -/
def epC8x : Endpoint :=
  { name := "orders", method := "POST", url_path := "/orders",
    expected_success_code := 200 }

def epC8 : Endpoint := { name := "cleanup", method := "DELETE", url_path := "/cleanup" }

def epC8ok : Endpoint :=
  { name := "cleanup", method := "DELETE", url_path := "/cleanup",
    expected_success_code := 204 }

def epC9a : Endpoint := { name := "create_order", method := "POST", url_path := "/orders" }

def epC9b : Endpoint :=
  { name := "cancel_order", method := "DELETE", url_path := "/orders/:id/cancel" }

def epC9c : Endpoint := { name := "get_order", method := "GET", url_path := "/orders/:id" }

def smC9 : StateMatch :=
  { allowedPattern := true, group1 := "cancelled", group2 := "pending",
    matched := "cancelled if status is pending" }

-- ═══════════════════════════════════════════════════════════
-- Supporting lemmas
-- ═══════════════════════════════════════════════════════════

theorem planEndpoint_error_of_ne (ctx : SystemContext) (es : List String)
    (ep : Endpoint) (h : ep.request_body ≠ []) :
    planEndpoint ctx es ep = .error .attributeError := by
  have hb : ep.request_body.isEmpty = false := by
    cases hb : ep.request_body with
    | nil => exact absurd hb h
    | cons a l => rfl
  simp [planEndpoint, hb]

theorem planEndpoint_ne_error_of_nil (ctx : SystemContext) (es : List String)
    (ep : Endpoint) (h : ep.request_body = []) :
    ∀ e, planEndpoint ctx es ep ≠ .error e := by
  intro e
  have hb : ep.request_body.isEmpty = true := by simp [h]
  simp [planEndpoint, hb]

theorem planScenarios_error (ctx : SystemContext) (es : List String) :
    ∀ eps : List Endpoint, (∃ ep ∈ eps, ep.request_body ≠ []) →
      planScenarios ctx es eps = .error .attributeError := by
  intro eps
  induction eps with
  | nil => rintro ⟨ep, h, -⟩; simp at h
  | cons ep rest ih =>
    rintro ⟨e, he, hne⟩
    rcases List.mem_cons.mp he with rfl | hrest
    · simp only [planScenarios]
      rw [planEndpoint_error_of_ne ctx es e hne]
    · simp only [planScenarios]
      cases hpe : planEndpoint ctx es ep with
      | error err =>
        have h1 : planEndpoint ctx es ep = .error .attributeError := by
          cases hb : ep.request_body with
          | nil => exact absurd hpe (planEndpoint_ne_error_of_nil ctx es ep hb err)
          | cons a l => exact planEndpoint_error_of_ne ctx es ep (by simp [hb])
        rw [hpe] at h1
        injection h1 with h1
        subst h1
        rfl
      | ok s =>
        rw [ih ⟨e, hrest, hne⟩]

theorem planScenarios_ok_nil (ctx : SystemContext) (es : List String) :
    ∀ (eps : List Endpoint) (l : List TestScenario),
      planScenarios ctx es eps = .ok l → ∀ ep ∈ eps, ep.request_body = [] := by
  intro eps
  induction eps with
  | nil => intro l _ ep h; simp at h
  | cons ep rest ih =>
    intro l hok e he
    rcases List.mem_cons.mp he with rfl | hrest
    · cases hb : e.request_body with
      | nil => rfl
      | cons a t =>
        simp only [planScenarios] at hok
        rw [planEndpoint_error_of_ne ctx es e (by simp [hb])] at hok
        simp at hok
    · simp only [planScenarios] at hok
      cases hpe : planEndpoint ctx es ep with
      | error err => rw [hpe] at hok; simp at hok
      | ok s =>
        rw [hpe] at hok
        cases hr : planScenarios ctx es rest with
        | error e2 => rw [hr] at hok; simp at hok
        | ok r => exact ih r hr e hrest

theorem prefix_split {sp : Char} : ∀ {a x y : List Char},
    a <+: x ++ sp :: y → sp ∉ a → a <+: x := by
  intro a
  induction a with
  | nil => intro x y _ _; exact List.nil_prefix
  | cons c a' ih =>
    intro x y h hsp
    cases x with
    | nil =>
      rw [List.nil_append, List.cons_prefix_cons] at h
      exact absurd (h.1 ▸ List.mem_cons_self c a') hsp
    | cons d x' =>
      rw [List.cons_append, List.cons_prefix_cons] at h
      refine List.cons_prefix_cons.mpr ⟨h.1, ih h.2 ?_⟩
      exact fun hm => hsp (List.mem_cons_of_mem c hm)

theorem infix_split {sp : Char} {a : List Char} : ∀ (x : List Char) {y : List Char},
    a <:+: x ++ sp :: y → sp ∉ a → a <:+: x ∨ a <:+: y := by
  intro x
  induction x with
  | nil =>
    intro y h hsp
    rw [List.nil_append, List.infix_cons_iff] at h
    rcases h with h | h
    · cases a with
      | nil => exact Or.inl List.nil_infix
      | cons c a' =>
        rw [List.cons_prefix_cons] at h
        exact absurd (h.1 ▸ List.mem_cons_self c a') hsp
    · exact Or.inr h
  | cons d x' ih =>
    intro y h hsp
    rw [List.cons_append, List.infix_cons_iff] at h
    rcases h with h | h
    · exact Or.inl
        (prefix_split (show a <+: (d :: x') ++ sp :: y from h) hsp).isInfix
    · rcases ih h hsp with h2 | h2
      · exact Or.inl (List.infix_cons h2)
      · exact Or.inr h2

theorem strContains_true_iff {s sub : String} :
    strContains s sub = true ↔ sub.data <:+: s.data := by
  simp [strContains]

theorem strContains_append_space {n p a : String}
    (h : (' ' : Char) ∉ a.data) :
    strContains (n ++ " " ++ p) a = true
      ↔ strContains n a = true ∨ strContains p a = true := by
  simp only [strContains_true_iff]
  have hd : (n ++ " " ++ p).data = n.data ++ ' ' :: p.data := by
    rw [String.data_append, String.data_append]
    rw [List.append_assoc]
    rfl
  rw [hd]
  constructor
  · intro hi
    exact infix_split n.data hi h
  · rintro (hi | hi)
    · exact hi.trans (List.prefix_append n.data (' ' :: p.data)).isInfix
    · refine hi.trans ?_
      have : n.data ++ ' ' :: p.data = (n.data ++ [' ']) ++ p.data := by
        rw [List.append_assoc]; rfl
      rw [this]
      exact (List.suffix_append (n.data ++ [' ']) p.data).isInfix

theorem epKeywordMatch_true_iff {action : String}
    (h : (' ' : Char) ∉ action.data) (ep : Endpoint) :
    epKeywordMatch action ep = true ↔ nameOrPathHasVerbOrStem action ep := by
  unfold epKeywordMatch action_matches_endpoint nameOrPathHasVerbOrStem
  simp only [Bool.or_eq_true]
  rw [strContains_append_space h]
  tauto

theorem getLast?_append_of_ne_nil {l1 l2 : List Char} (h : l2 ≠ []) :
    (l1 ++ l2).getLast? = l2.getLast? := by
  rw [List.getLast?_append]
  cases hl : l2.getLast? with
  | none => exact absurd (List.getLast?_eq_none_iff.mp hl) h
  | some a => rfl

theorem append_suffix_inj {b1 b2 s1 s2 : String}
    (h1 : s1 ∈ ["_positive", "_no_auth", "_invalid_id"])
    (h2 : s2 ∈ ["_positive", "_no_auth", "_invalid_id"])
    (h : b1 ++ s1 = b2 ++ s2) : b1 = b2 ∧ s1 = s2 := by
  have hd : b1.data ++ s1.data = b2.data ++ s2.data := by
    have := congrArg String.data h
    rwa [String.data_append, String.data_append] at this
  simp only [List.mem_cons, List.not_mem_nil, or_false] at h1 h2
  rcases h1 with rfl | rfl | rfl <;> rcases h2 with rfl | rfl | rfl <;>
    first
    | exact ⟨String.ext (List.append_cancel_right hd), rfl⟩
    | · exfalso
        have hl := congrArg List.getLast? hd
        rw [getLast?_append_of_ne_nil (by decide),
          getLast?_append_of_ne_nil (by decide)] at hl
        exact absurd hl (by decide)

theorem mem_bareCandidateNames {x : String} {ep : Endpoint}
    (h : x ∈ bareCandidateNames ep) :
    ∃ s ∈ (["_positive", "_no_auth", "_invalid_id"] : List String),
      x = ep.name ++ s := by
  unfold bareCandidateNames at h
  by_cases h1 : ep.requires_auth <;>
    by_cases h2 : strContains ep.url_path ":id" = true <;>
    simp [h1, h2] at h <;>
    rcases h with rfl | rfl | rfl <;>
    first
    | exact ⟨"_positive", by simp, rfl⟩
    | exact ⟨"_no_auth", by simp, rfl⟩
    | exact ⟨"_invalid_id", by simp, rfl⟩

theorem nodup_bareCandidateNames (ep : Endpoint) :
    (bareCandidateNames ep).Nodup := by
  have key : ∀ s1 s2 : String, s1 ∈ ["_positive", "_no_auth", "_invalid_id"] →
      s2 ∈ ["_positive", "_no_auth", "_invalid_id"] → s1 ≠ s2 →
      ep.name ++ s1 ≠ ep.name ++ s2 :=
    fun s1 s2 hm1 hm2 hne heq => hne (append_suffix_inj hm1 hm2 heq).2
  unfold bareCandidateNames
  by_cases h1 : ep.requires_auth <;>
    by_cases h2 : strContains ep.url_path ":id" = true <;>
    simp [h1, h2] <;>
    first
    | exact ⟨⟨key _ _ (by simp) (by simp) (by decide), key _ _ (by simp) (by simp) (by decide)⟩,
        key _ _ (by simp) (by simp) (by decide)⟩
    | exact key _ _ (by simp) (by simp) (by decide)

theorem map_name_addIf (es : List String) (sc : TestScenario) :
    (addIf es sc).map TestScenario.test_name
      = [sc.test_name].filter (fun n => !(es.contains n)) := by
  unfold addIf
  by_cases h : sc.test_name ∈ es <;> simp [h]

theorem planEndpoint_bare_names (ctx : SystemContext) (es : List String)
    (ep : Endpoint) (hb : ep.request_body = [])
    (hsc : ep.state_constraints = []) (hro : ep.roles = [])
    (hdep : ep.depends_on = []) :
    (planEndpoint ctx es ep).map (fun l => l.map TestScenario.test_name)
      = .ok ((bareCandidateNames ep).filter (fun n => !(es.contains n))) := by
  unfold planEndpoint
  rw [hb, hsc, hro, hdep]
  simp only [List.flatMap_nil, List.filter_nil, List.take_nil, List.length_nil,
    List.isEmpty_nil, if_true, List.append_nil, Except.map]
  unfold bareCandidateNames
  by_cases h1 : ep.requires_auth <;>
    by_cases h2 : strContains ep.url_path ":id" = true <;>
    simp [h1, h2, map_name_addIf, List.filter_append, List.filter_cons] <;>
    split_ifs <;> simp

theorem planScenarios_bare (ctx : SystemContext) (es : List String) :
    ∀ eps : List Endpoint,
      (∀ ep ∈ eps, ep.request_body = [] ∧ ep.state_constraints = []
        ∧ ep.roles = [] ∧ ep.depends_on = []) →
      (planScenarios ctx es eps).map (fun l => l.map TestScenario.test_name)
        = .ok (eps.flatMap
            (fun ep => (bareCandidateNames ep).filter (fun n => !(es.contains n)))) := by
  intro eps
  induction eps with
  | nil => intro _; rfl
  | cons ep rest ih =>
    intro h
    obtain ⟨hb, hsc, hro, hdep⟩ := h ep (List.mem_cons_self ep rest)
    have h1 := planEndpoint_bare_names ctx es ep hb hsc hro hdep
    have h2 := ih (fun e he => h e (List.mem_cons_of_mem ep he))
    simp only [planScenarios]
    cases hpe : planEndpoint ctx es ep with
    | error e => rw [hpe] at h1; simp [Except.map] at h1
    | ok s =>
      rw [hpe] at h1
      simp only [Except.map, Except.ok.injEq] at h1
      cases hps : planScenarios ctx es rest with
      | error e => rw [hps] at h2; simp [Except.map] at h2
      | ok r =>
        rw [hps] at h2
        simp only [Except.map, Except.ok.injEq] at h2
        simp [Except.map, h1, h2]

theorem nodup_bare_flatMap (es : List String) (eps : List Endpoint)
    (h : (eps.map Endpoint.name).Nodup) :
    (eps.flatMap
      (fun ep => (bareCandidateNames ep).filter (fun n => !(es.contains n)))).Nodup := by
  rw [List.nodup_flatMap]
  constructor
  · intro ep _
    exact (nodup_bareCandidateNames ep).filter _
  · have hp : eps.Pairwise (fun a b => a.name ≠ b.name) := List.pairwise_map.mp h
    refine hp.imp ?_
    intro a b hne x hxa hxb
    obtain ⟨s1, hs1, rfl⟩ := mem_bareCandidateNames (List.mem_filter.mp hxa).1
    obtain ⟨s2, hs2, heq⟩ := mem_bareCandidateNames (List.mem_filter.mp hxb).1
    exact hne (append_suffix_inj hs1 hs2 heq).1

theorem validate_unique_of_nodup {scs : List TestScenario}
    (h : (scs.map TestScenario.test_name).Nodup) :
    validate_unique_test_names scs = true := by
  unfold validate_unique_test_names
  rw [List.dedup_eq_self.mpr h]
  simp

theorem plan_tests_ok_of_valid (ctx : SystemContext) (existing : List String)
    (scs : List TestScenario)
    (hps : planScenarios ctx existing.dedup ctx.endpoints = .ok scs)
    (hval : validate_unique_test_names scs = true) :
    ∃ plan, plan_tests ctx existing = .ok plan ∧ plan.scenarios = scs := by
  simp only [plan_tests, hps, hval, if_true]
  exact ⟨_, rfl, rfl⟩

-- ═══════════════════════════════════════════════════════════
-- Claim theorems
-- ═══════════════════════════════════════════════════════════

/-- C2: for every SystemContext with at least one endpoint whose
request_body is non-empty, plan_tests raises AttributeError at the
numeric-boundary field filter (FieldSpec declares no minimum/maximum
attribute); consequently plan_tests can return a TestPlan only when every
endpoint's request_body is empty. -/
theorem C2_planner_requires_empty_request_bodies (ctx : SystemContext)
    (existing : List String) :
    ((∃ ep ∈ ctx.endpoints, ep.request_body ≠ []) →
        plan_tests ctx existing = .error .attributeError)
    ∧ (∀ plan, plan_tests ctx existing = .ok plan →
        ∀ ep ∈ ctx.endpoints, ep.request_body = []) := by
  constructor
  · intro h
    simp only [plan_tests]
    rw [planScenarios_error ctx existing.dedup ctx.endpoints h]
  · intro plan hok ep hep
    simp only [plan_tests] at hok
    cases hsc : planScenarios ctx existing.dedup ctx.endpoints with
    | error e => rw [hsc] at hok; simp at hok
    | ok l => exact planScenarios_ok_nil ctx existing.dedup ctx.endpoints l hsc ep hep

/-- Witness for C2 at a concrete context with one POST /users endpoint
carrying one request field. -/
theorem C2_planner_requires_empty_request_bodies_witness :
    plan_tests ctxC2 [] = .error .attributeError :=
  (C2_planner_requires_empty_request_bodies ctxC2 []).1
    ⟨epC2, by simp [ctxC2], by simp [epC2]⟩

/-- C3: the spec's numeric-boundary rule (minimum = 1 emits a _negative_
and a _zero_ scenario) is unreachable in the code: FieldSpec declares no
minimum/maximum attribute, so the planner's step 9 raises AttributeError
on the failing input instead of emitting the two scenarios. -/
theorem C3_numeric_boundary_rule_unreachable :
    plan_tests ctxC3 [] = .error .attributeError := rfl

/-- C5 counterexample: a SystemContext whose single endpoint's depends_on
names a non-existent endpoint constructs successfully — dangling
depends_on references are not a construction-time error. -/
theorem C5_counterexample_depends_on_unchecked :
    mkSystemContext ctxC5 = .ok ctxC5
    ∧ epC5 ∈ ctxC5.endpoints
    ∧ "ghost" ∈ epC5.depends_on
    ∧ "ghost" ∉ ctxC5.endpoints.map Endpoint.name := by
  refine ⟨rfl, by simp [ctxC5], by simp [epC5], by simp [ctxC5, epC5]⟩

/-- C5 amended: only the `dependencies` map is validated at construction —
every name in its value lists must be an existing endpoint name (the
`depends_on` lists are not checked). -/
theorem C5_dependencies_map_validated (ctx ctx' : SystemContext)
    (h : mkSystemContext ctx = .ok ctx') :
    ctx' = ctx ∧ ∀ kv ∈ ctx.dependencies, ∀ d ∈ kv.2,
      d ∈ ctx.endpoints.map Endpoint.name := by
  unfold mkSystemContext at h
  split at h
  · simp at h
  · split at h
    · simp at h
    · rename_i h1 h2
      have hok : ctx = ctx' := by injection h
      subst hok
      refine ⟨rfl, ?_⟩
      intro kv hkv d hd
      have h2' : validate_dependencies_exist ctx.endpoints ctx.dependencies = true := by
        revert h2; cases validate_dependencies_exist ctx.endpoints ctx.dependencies <;> simp
      rw [validate_dependencies_exist, List.all_eq_true] at h2'
      have := h2' kv hkv
      rw [List.all_eq_true] at this
      exact List.elem_iff.mp (this d hd)

/-- Witness for C5 amended at a concrete two-endpoint context with a
dependencies entry. -/
theorem C5_dependencies_map_validated_witness :
    ctxC5w = ctxC5w ∧ ∀ kv ∈ ctxC5w.dependencies, ∀ d ∈ kv.2,
      d ∈ ctxC5w.endpoints.map Endpoint.name :=
  C5_dependencies_map_validated ctxC5w ctxC5w (by rfl)

/-- C6: every failure mode of the Tier-2 refinement collaborator (absent
credentials / unreachable collaborator, a raising chat call such as a
timeout, malformed JSON) is swallowed, and infer_schemas returns exactly
the Tier-1 deterministic result — every endpoint's request_body,
response_body, state_constraints and roles are as they were before the
refinement attempt. -/
theorem C6_refinement_failure_is_noop (eps : List Endpoint)
    (sms : List StateMatch) (rms : List RoleMatch) (has_text : Bool)
    (o : RefineOutcome)
    (h : o = .unavailable ∨ o = .chatError ∨ o = .malformedJson) :
    infer_schemas eps sms rms has_text o = tier1 eps sms rms has_text := by
  rcases h with rfl | rfl | rfl <;>
    · unfold infer_schemas try_llm_refinement
      cases has_text <;> simp

/-- Witness for C6: a concrete raising chat call on a one-endpoint batch. -/
theorem C6_refinement_failure_is_noop_witness :
    infer_schemas [epC6] [] [] true .chatError = tier1 [epC6] [] [] true :=
  C6_refinement_failure_is_noop [epC6] [] [] true .chatError (Or.inr (Or.inl rfl))

/-- C7: the endpoint POST /orders with requires_auth and no dependencies,
annotations or :id segment plans exactly orders_positive (201) and
orders_no_auth (401). -/
theorem C7_post_orders_exact_two_scenarios :
    mkEndpoint epC7raw = .ok epC7
    ∧ mkSystemContext ctxC7 = .ok ctxC7
    ∧ (plan_tests ctxC7 []).map TestPlan.scenarios = .ok
        [{ test_name := "orders_positive", endpoint := "orders",
           description := "Verify POST /orders returns success with valid data",
           test_type := "positive", expected_status := 201, payload_hint := none },
         { test_name := "orders_no_auth", endpoint := "orders",
           description := "Verify POST /orders rejects unauthenticated requests",
           test_type := "no_auth", expected_status := 401, payload_hint := none }] :=
  ⟨rfl, rfl, rfl⟩

/-- C8 counterexample: an explicitly supplied expected_success_code of 200
on a POST endpoint is not kept — the validator rewrites it to 201, because
it cannot distinguish an explicit 200 from the unset default. -/
theorem C8_counterexample_explicit_200_overridden :
    (mkEndpoint epC8x).map Endpoint.expected_success_code = .ok 201
    ∧ (201 : Int) ≠ 200 :=
  ⟨rfl, by decide⟩

/-- C8 amended: expected_success_code is the supplied value whenever that
value differs from 200; a supplied (or defaulted) 200 becomes 201 for
POST and 204 for DELETE, else stays 200. -/
theorem C8_success_code_rule (ep ep' : Endpoint) (h : mkEndpoint ep = .ok ep') :
    ep'.expected_success_code =
      if ep.expected_success_code = 200 then
        if pyUpper ep.method = "POST" then 201
        else if pyUpper ep.method = "DELETE" then 204
        else 200
      else ep.expected_success_code := by
  unfold mkEndpoint at h
  split at h
  · have hok : auto_success_code { ep with method := pyUpper ep.method } = ep' := by
      injection h
    subst hok
    obtain ⟨n, m, u, ra, dep, rb, resb, sc, ro, d, code⟩ := ep
    unfold auto_success_code
    by_cases h200 : code = 200 <;>
      by_cases hp : pyUpper m = "POST" <;>
      by_cases hd : pyUpper m = "DELETE" <;>
      simp_all
  · simp at h

/-- Witness for C8 amended: a DELETE endpoint with the default 200 gets
204. -/
theorem C8_success_code_rule_witness :
    epC8ok.expected_success_code =
      if epC8.expected_success_code = 200 then
        if pyUpper epC8.method = "POST" then 201
        else if pyUpper epC8.method = "DELETE" then 204
        else 200
      else epC8.expected_success_code :=
  C8_success_code_rule epC8 epC8ok (by rfl)

/-- C10: validate_coverage computes already_covered as planned ∩ existing,
new_tests as planned − existing, duplicates as the names occurring more
than once in the raw planned list, coverage_improvement as
|new|/|planned_set| with 0.0 on empty input; and the concrete run on
(["a_positive","b_positive","a_positive"], ["a_positive"]) yields
duplicates {a_positive}, new_tests {b_positive}, already_covered
{a_positive} and improvement 0.5. -/
theorem C10_validate_coverage_characterization :
    (∀ p e x, x ∈ (validate_coverage p e).already_covered ↔ x ∈ p ∧ x ∈ e)
    ∧ (∀ p e x, x ∈ (validate_coverage p e).new_tests ↔ x ∈ p ∧ x ∉ e)
    ∧ (∀ p e x, x ∈ (validate_coverage p e).duplicates ↔ p.count x > 1)
    ∧ (∀ e, (validate_coverage [] e).coverage_improvement = 0)
    ∧ (∀ p e, p ≠ [] → (validate_coverage p e).coverage_improvement
        = ((validate_coverage p e).new_tests.card : ℚ) / (p.toFinset.card : ℚ))
    ∧ ((validate_coverage ["a_positive", "b_positive", "a_positive"] ["a_positive"]).duplicates
          = {"a_positive"}
      ∧ (validate_coverage ["a_positive", "b_positive", "a_positive"] ["a_positive"]).new_tests
          = {"b_positive"}
      ∧ (validate_coverage ["a_positive", "b_positive", "a_positive"] ["a_positive"]).already_covered
          = {"a_positive"}
      ∧ (validate_coverage ["a_positive", "b_positive", "a_positive"] ["a_positive"]).coverage_improvement
          = 1/2) := by
  refine ⟨?_, ?_, ?_, ?_, ?_, ?_⟩
  · intro p e x
    simp [validate_coverage]
  · intro p e x
    simp [validate_coverage]
  · intro p e x
    simp only [validate_coverage, List.mem_toFinset, List.mem_filter,
      decide_eq_true_eq]
    constructor
    · rintro ⟨-, h⟩; exact h
    · intro h
      refine ⟨List.count_pos_iff.mp (by omega), h⟩
  · intro e
    simp [validate_coverage]
  · intro p e hp
    have hpos : 0 < p.toFinset.card :=
      Finset.card_pos.mpr ((List.toFinset_nonempty_iff p).mpr hp)
    simp [validate_coverage, hpos]
  · refine ⟨by decide, by decide, by decide, ?_⟩
    have h1 : (((["a_positive", "b_positive", "a_positive"] : List String).toFinset
        \ (["a_positive"] : List String).toFinset).card) = 1 := by decide
    have h2 : ((["a_positive", "b_positive", "a_positive"] : List String).toFinset.card) = 2 := by
      decide
    simp [validate_coverage, h1, h2]

/-- Witness for C10 at a concrete non-empty planned list. -/
theorem C10_validate_coverage_characterization_witness :
    (validate_coverage ["a_positive"] []).coverage_improvement
      = ((validate_coverage ["a_positive"] []).new_tests.card : ℚ)
        / (((["a_positive"] : List String).toFinset.card : ℚ)) :=
  C10_validate_coverage_characterization.2.2.2.2.1 ["a_positive"] [] (by decide)

/-- C4 counterexample: a GET endpoint's request_body is NOT populated with
the generic two-field template — the inference loop skips request-body
population entirely for GET/HEAD/OPTIONS, leaving it empty. -/
theorem C4_counterexample_get_request_body_not_populated :
    (infer_schemas [epC4get] [] [] false .unavailable).map Endpoint.request_body = [[]]
    ∧ ([[]] : List (List FieldSpec)) ≠ [generic_request_fields epC4get] :=
  ⟨rfl, by decide⟩

/-- C4 amended: GET/HEAD/OPTIONS endpoints keep their request_body
unchanged (empty stays empty); for any other method with an empty
request_body and no matching domain rule, schema inference populates the
generic two-field template (required name, optional description) derived
from the singularized resource name. -/
theorem C4_request_body_inference (ep : Endpoint) :
    (["GET", "HEAD", "OPTIONS"].contains ep.method = true →
      (infer_schemas [ep] [] [] false .unavailable).map Endpoint.request_body
        = [ep.request_body])
    ∧ (["GET", "HEAD", "OPTIONS"].contains ep.method = false →
      ep.request_body = [] →
      (∀ r ∈ DOMAIN_SCHEMAS, ruleMatches ep r = false) →
      (infer_schemas [ep] [] [] false .unavailable).map Endpoint.request_body
        = [[{ name := "name", field_type := "string", required := true,
              example_ := some ("Test " ++ pyTitle (extract_resource ep.url_path)) },
            { name := "description", field_type := "string", required := false,
              example_ := some ("Description for " ++ extract_resource ep.url_path) }]]) := by
  have hi : infer_schemas [ep] [] [] false .unavailable = [tier1Endpoint ep] := by
    unfold infer_schemas try_llm_refinement tier1
    simp
  constructor
  · intro hm
    rw [hi]
    unfold tier1Endpoint
    rw [hm]
    simp only [if_true]
    split <;> rfl
  · intro hm hrb hrules
    rw [hi]
    unfold tier1Endpoint
    rw [hm]
    have hfind : DOMAIN_SCHEMAS.find? (ruleMatches ep) = none :=
      List.find?_eq_none.mpr (fun r hr => by rw [hrules r hr]; simp)
    simp only [Bool.false_eq_true, if_false, hrb, List.isEmpty_nil, if_true]
    simp only [infer_request_fields, hfind, generic_request_fields]
    split <;> rfl

/-- Witness for C4 amended: a concrete GET endpoint (unchanged) and a
concrete DELETE endpoint matching no rule (generic template). -/
theorem C4_request_body_inference_witness :
    ((infer_schemas [epC4get] [] [] false .unavailable).map Endpoint.request_body
        = [epC4get.request_body])
    ∧ ((infer_schemas [epC4del] [] [] false .unavailable).map Endpoint.request_body
        = [[{ name := "name", field_type := "string", required := true,
              example_ := some ("Test " ++ pyTitle (extract_resource epC4del.url_path)) },
            { name := "description", field_type := "string", required := false,
              example_ := some ("Description for " ++ extract_resource epC4del.url_path) }]]) :=
  ⟨(C4_request_body_inference epC4get).1 rfl,
   (C4_request_body_inference epC4del).2 rfl rfl (by decide)⟩

/-- C9: one state-rule regex match attaches its extracted StateConstraint
to exactly the first endpoint in declaration order whose name or url_path
contains the matched action verb or its stem (trailing led/ed/d stripped),
appending only when no value-equal constraint is already attached; earlier
non-matching endpoints and all later endpoints are untouched.  (The
hypothesis that the captured verb has no space is guaranteed by the `\w+`
capture group.) -/
theorem C9_state_rule_attachment (m : StateMatch) (pre post : List Endpoint)
    (ep : Endpoint)
    (hsp : (' ' : Char) ∉ (pyLower m.group1).data)
    (hpre : ∀ e ∈ pre, ¬ nameOrPathHasVerbOrStem (pyLower m.group1) e)
    (hep : nameOrPathHasVerbOrStem (pyLower m.group1) ep) :
    extract_state_constraints (pre ++ ep :: post) [m]
      = pre ++ (if matchConstraint m ∈ ep.state_constraints then ep
          else { ep with state_constraints :=
                  ep.state_constraints ++ [matchConstraint m] }) :: post := by
  have key : ∀ pre2 : List Endpoint,
      (∀ e ∈ pre2, ¬ nameOrPathHasVerbOrStem (pyLower m.group1) e) →
      attachConstraint (pyLower m.group1) (matchConstraint m) (pre2 ++ ep :: post)
        = pre2 ++ (if matchConstraint m ∈ ep.state_constraints then ep
            else { ep with state_constraints :=
                    ep.state_constraints ++ [matchConstraint m] }) :: post := by
    intro pre2
    induction pre2 with
    | nil =>
      intro _
      simp only [List.nil_append, attachConstraint]
      rw [if_pos ((epKeywordMatch_true_iff hsp ep).mpr hep)]
      unfold addConstraint
      by_cases hc : matchConstraint m ∈ ep.state_constraints <;>
        simp [hc]
    | cons e pre2' ih =>
      intro hpre2
      simp only [List.cons_append, attachConstraint, List.append_eq]
      rw [if_neg (fun hmt => hpre2 e (List.mem_cons_self e pre2')
        ((epKeywordMatch_true_iff hsp e).mp hmt))]
      rw [ih (fun x hx => hpre2 x (List.mem_cons_of_mem e hx))]
  simpa [extract_state_constraints] using key pre hpre

/-- Witness for C9: the match for the verb "cancelled" skips
create_order, lands on cancel_order (stem "cancel" in the name), and
leaves get_order untouched. -/
theorem C9_state_rule_attachment_witness :
    extract_state_constraints ([epC9a] ++ epC9b :: [epC9c]) [smC9]
      = [epC9a] ++ (if matchConstraint smC9 ∈ epC9b.state_constraints then epC9b
          else { epC9b with state_constraints :=
                  epC9b.state_constraints ++ [matchConstraint smC9] }) :: [epC9c] :=
  C9_state_rule_attachment smC9 [epC9a] [epC9c] epC9b (by decide) (by decide)
    (by decide)

/-- C1 counterexample: a valid SystemContext whose single endpoint carries
two non-value-equal constraints on the same status field makes plan_tests
generate the name orders_state_conflict_status twice, and the TestPlan
uniqueness validator rejects the planner-produced list. -/
theorem C1_counterexample_duplicate_state_conflict_names :
    mkSystemContext ctxC1 = .ok ctxC1
    ∧ plan_tests ctxC1 [] = .error .valueError :=
  ⟨rfl, rfl⟩

/-- C1 amended: for a valid SystemContext (unique endpoint names) whose
endpoints carry no annotations (empty request_body, state_constraints,
roles) and no depends_on, and for every existing-test list, plan_tests
returns a TestPlan whose test_name values are pairwise distinct (the
uniqueness validator accepts).  In general the planner does not guarantee
uniqueness: its dedup only guards against the existing names, not against
its own emissions. -/
theorem C1_bare_plan_names_unique (ctx : SystemContext) (existing : List String)
    (hvalid : validate_no_duplicate_names ctx.endpoints = true)
    (hbare : ∀ ep ∈ ctx.endpoints, ep.request_body = [] ∧ ep.state_constraints = []
      ∧ ep.roles = [] ∧ ep.depends_on = []) :
    ∃ plan, plan_tests ctx existing = .ok plan
      ∧ (plan.scenarios.map TestScenario.test_name).Nodup := by
  have hnodup : (ctx.endpoints.map Endpoint.name).Nodup := by
    unfold validate_no_duplicate_names at hvalid
    have hlen := of_decide_eq_true hvalid
    have hsub := List.dedup_sublist (ctx.endpoints.map Endpoint.name)
    have heq := hsub.eq_of_length hlen.symm
    rw [← heq]
    exact List.nodup_dedup _
  have hnames := planScenarios_bare ctx existing.dedup ctx.endpoints hbare
  cases hps : planScenarios ctx existing.dedup ctx.endpoints with
  | error e => rw [hps] at hnames; simp [Except.map] at hnames
  | ok scs =>
    rw [hps] at hnames
    simp only [Except.map, Except.ok.injEq] at hnames
    have hnd : (scs.map TestScenario.test_name).Nodup := by
      rw [hnames]
      exact nodup_bare_flatMap existing.dedup ctx.endpoints hnodup
    obtain ⟨plan, hpt, hsceq⟩ :=
      plan_tests_ok_of_valid ctx existing scs hps (validate_unique_of_nodup hnd)
    exact ⟨plan, hpt, hsceq ▸ hnd⟩

/-- Witness for C1 amended at a concrete two-endpoint bare context. -/
theorem C1_bare_plan_names_unique_witness :
    ∃ plan, plan_tests ctxC1w [] = .ok plan
      ∧ (plan.scenarios.map TestScenario.test_name).Nodup :=
  C1_bare_plan_names_unique ctxC1w [] (by decide) (by decide)

end MindFlayer
